import Mathlib

/-!
Shallow embedding of the highlight-reel pipeline of `app/final_highlight_creator.py`
and `app/clip_extractor.py` (the `FinalHighlightCreator` class and the standalone
clip-extraction helpers), together with proofs about the embedded operations.

Modelling conventions:
* Python `float` times are modelled as `ℚ` (all operations used on them are
  comparison, `max`, `+`, `-`).
* The filesystem and the external `ffmpeg` tool are modelled by an explicit
  environment `Env` of oracles (file existence, modification times, per-clip
  extraction success, stage failures); the pipeline is a pure function of the
  environment.
* Python `try/except` is modelled with `Except String`; an exception that
  escapes a stage is an `.error`, caught by the top-level handler of
  `create_final_highlight`.
* Python's stable `sorted(·, key=...)` is modelled by the stable
  `List.insertionSort` with the same key order (any two stable sorts by the
  same key agree pointwise).
-/

/-- Embeds `app/types.py`, class `HighlightClip` (a pydantic model). -/
structure HighlightClip where
  start_time : ℚ
  end_time : ℚ
  start_time_formatted : Option String := none
  end_time_formatted : Option String := none
  duration : Option ℚ := none
  description : String
  importance_score : Option ℚ := none
  category : Option String := none
deriving DecidableEq, Repr

/-- Python `a or b` on `Optional[str]` operands: `None` and the empty string are
falsy, so the right operand is returned whenever the left is `None` or `""`.
Used for `last_highlight.category or highlight.category`. -/
def pyOrStr : Option String → Option String → Option String
  | some s, b => if s = "" then b else some s
  | none, b => b

/-- Python `x or 0` on an `Optional[float]` operand: `None` and `0.0` are falsy,
both yielding `0`. Used for `last_highlight.importance_score or 0`. -/
def pyOrZero : Option ℚ → ℚ
  | some v => if v = 0 then 0 else v
  | none => 0

/-- The merged clip built in the overlap branch of `_detect_overlaps`
(`final_highlight_creator.py` lines 110-122). -/
def mergedClip (last_highlight highlight : HighlightClip) : HighlightClip :=
  { start_time := last_highlight.start_time
    end_time := max last_highlight.end_time highlight.end_time
    start_time_formatted := last_highlight.start_time_formatted
    end_time_formatted := highlight.end_time_formatted
    duration := some (max last_highlight.end_time highlight.end_time - last_highlight.start_time)
    description := last_highlight.description ++ " | " ++ highlight.description
    importance_score := some (max (pyOrZero last_highlight.importance_score)
      (pyOrZero highlight.importance_score))
    category := pyOrStr last_highlight.category highlight.category }

/-- The accumulating walk of `_detect_overlaps` (lines 100-126): the first
argument is the last element of the Python `non_overlapping` list (the only one
that is still mutable); the elements emitted before it are frozen. When the
candidate overlaps (`highlight.start_time < last_highlight.end_time`) the last
element is replaced by the merged clip, otherwise it is frozen and the
candidate becomes the new last element. -/
def mergeLoop : HighlightClip → List HighlightClip → List HighlightClip
  | last_highlight, [] => [last_highlight]
  | last_highlight, highlight :: rest =>
    if highlight.start_time < last_highlight.end_time then
      mergeLoop (mergedClip last_highlight highlight) rest
    else
      last_highlight :: mergeLoop highlight rest

/-- The sort key order of `sorted(highlights, key=lambda x: x.start_time)`. -/
def startLE (a b : HighlightClip) : Prop := a.start_time ≤ b.start_time

instance : DecidableRel startLE := fun a b =>
  inferInstanceAs (Decidable (a.start_time ≤ b.start_time))

instance : IsTotal HighlightClip startLE :=
  ⟨fun a b => le_total a.start_time b.start_time⟩

instance : IsTrans HighlightClip startLE :=
  ⟨fun _ _ _ hab hbc => le_trans hab hbc⟩

/-- The merge walk applied to the already-sorted list: the first element seeds
the `non_overlapping` accumulator (lines 100-103). -/
def mergeAll : List HighlightClip → List HighlightClip
  | [] => []
  | first :: rest => mergeLoop first rest

/-- Embeds `FinalHighlightCreator._detect_overlaps` (lines 83-128): sort the
input by `start_time` (a stable sort, as Python's `sorted`) and run the merge
walk via `mergeAll`. The Python early return on an empty input coincides with
the `[]` arm of `mergeAll`. -/
def detect_overlaps (highlights : List HighlightClip) : List HighlightClip :=
  mergeAll (List.insertionSort startLE highlights)

/-- Separation order asserted of the merger's output: later intervals start
after the earlier interval starts and after it ends. -/
def sepLE (a b : HighlightClip) : Prop :=
  a.start_time ≤ b.start_time ∧ a.end_time ≤ b.start_time

/-- Embeds `os.path.join` for the forward-slash paths the pipeline builds. -/
def path_join (a b : String) : String := a ++ "/" ++ b

/-- Embeds `self.temp_dir = "temp_clips"` of `FinalHighlightCreator.__init__`. -/
def temp_dir : String := "temp_clips"

/-- Embeds `self.intro_path` (the module-relative bundled intro asset). -/
def intro_path : String := "app/highlights_intro.mp4"

/-- Embeds `self.outro_path` (the module-relative bundled outro asset). -/
def outro_path : String := "app/highlights_outro.mp4"

/-- Zero-padding of the Python format `{i:03d}` for the clip indices. -/
def format_int3 (i : ℕ) : String :=
  (if i < 10 then "00" else if i < 100 then "0" else "") ++ toString i

/-- The clip file name `f"clip_{i:03d}_{start_time}-{end_time}.mp4"` built in
`_extract_individual_clips` (line 148); numeric rendering uses the `ℚ`
representation in place of Python float formatting. -/
def clip_filename (i : ℕ) (h : HighlightClip) : String :=
  "clip_" ++ format_int3 i ++ "_" ++ toString h.start_time ++ "-" ++
    toString h.end_time ++ ".mp4"

/-- Embeds the video-stream properties dictionary built by
`_get_video_properties`. -/
structure VideoProps where
  width : ℕ
  height : ℕ
  codec : String
  pixel_format : String
  fps : ℚ
deriving DecidableEq, Repr

/-- Environment of oracles for the filesystem and the external tool: everything
the pipeline observes that is not one of its own arguments. -/
structure Env where
  /-- `os.path.exists`. -/
  file_exists : String → Bool
  /-- `os.path.getmtime`. -/
  getmtime : String → ℚ
  /-- `os.path.getsize`. -/
  getsize : String → ℤ
  /-- Whether the `ffmpeg.run` extracting clip number `i` succeeds (the
  `try` body of lines 151-163) or raises (the `except` of lines 164-166). -/
  extract_ok : ℕ → Bool
  /-- Result of `_get_video_properties` on the first extracted clip; that
  helper catches internally and yields an empty dictionary (`none`) on error. -/
  main_props : Option VideoProps
  /-- Error message of an exception raised inside
  `_create_concat_file_with_intro_outro` (intro/outro normalization or the
  manifest write), if any. -/
  concat_error : Option String
  /-- Error message of an exception raised inside `_stitch_clips`, if any. -/
  stitch_error : Option String

/-- Embeds `FinalHighlightCreator._is_cache_valid` (lines 63-81). -/
def is_cache_valid (env : Env) (final_highlight_path clips_json_path : String) : Bool :=
  if !env.file_exists final_highlight_path || !env.file_exists clips_json_path then
    false
  else
    decide (env.getmtime final_highlight_path ≥ env.getmtime clips_json_path)

/-- The indexed extraction loop of `_extract_individual_clips` (lines 147-166):
a successfully extracted clip's path is appended, a failed one is skipped
(`continue`). -/
def extract_clips_go (env : Env) (clips_dir : String) :
    ℕ → List HighlightClip → List String
  | _, [] => []
  | i, h :: rest =>
    if env.extract_ok i then
      path_join clips_dir (clip_filename i h) :: extract_clips_go env clips_dir (i + 1) rest
    else
      extract_clips_go env clips_dir (i + 1) rest

/-- Embeds `FinalHighlightCreator._extract_individual_clips` (lines 130-168). -/
def extract_individual_clips (env : Env) (highlights : List HighlightClip)
    (output_dir : String) : List String :=
  extract_clips_go env (path_join output_dir temp_dir) 0 highlights

/-- Replacement of every occurrence of the character `c` by the character list
`r`; Python `str.replace` restricted to the single-character patterns the
manifest writer uses. -/
def replace_char (c : Char) (r : List Char) (s : List Char) : List Char :=
  s.flatMap (fun a => if a = c then r else [a])

/-- The escaping `abs_path.replace("\\", "\\\\").replace(":", "\\:")` applied
to every path written to the concat manifest
(`_create_concat_file_with_intro_outro`, lines 276, 285, 291). -/
def escape_concat_path (s : String) : String :=
  String.mk (replace_char ':' ['\\', ':'] (replace_char '\\' ['\\', '\\'] s.data))

/-- One manifest line `f"file '{escaped_path}'\n"` as written by
`_create_concat_file_with_intro_outro`. -/
def concat_manifest_line (p : String) : String :=
  "file '" ++ escape_concat_path p ++ "'" ++ "\n"

/-- Filesystem effects performed by the media tool on behalf of the pipeline:
an `ffmpeg` run writing its output container at `dest` in place, and an atomic
rename. The embedding records the effects each helper requests. -/
inductive FsEffect where
  | ffmpeg_write (dest : String) : FsEffect
  | rename_file (src dest : String) : FsEffect
deriving DecidableEq, Repr

/-- Effect trace of the extraction loop of `_extract_individual_clips`: each
iteration passes the final clip destination `clip_path` directly as the
`ffmpeg.output` target (line 154), so the tool writes at that path in place. -/
def extract_clip_effects (clips_dir : String) :
    ℕ → List HighlightClip → List FsEffect
  | _, [] => []
  | i, h :: rest =>
    FsEffect.ffmpeg_write (path_join clips_dir (clip_filename i h)) ::
      extract_clip_effects clips_dir (i + 1) rest

/-- Effect trace of `_extract_individual_clips` for a whole highlight list. -/
def extract_individual_clips_effects (highlights : List HighlightClip)
    (output_dir : String) : List FsEffect :=
  extract_clip_effects (path_join output_dir temp_dir) 0 highlights

/-- Effect trace of `_normalize_video_file` (lines 216-246): `output_path` is
passed directly as the `ffmpeg.output` target (line 239). -/
def normalize_video_file_effects (output_path : String) : List FsEffect :=
  [FsEffect.ffmpeg_write output_path]

/-- The discipline the specification asserts of an artifact at `dest`: every
tool write in the trace targets a name other than `dest` and is followed up by
an atomic rename onto `dest`. -/
def writes_via_temp_rename (dest : String) (tr : List FsEffect) : Bool :=
  tr.all (fun e =>
    match e with
    | FsEffect.ffmpeg_write d =>
      decide (d ≠ dest) && tr.contains (FsEffect.rename_file d dest)
    | FsEffect.rename_file _ _ => true)

/-- The `(ss, t)` pair that `extract_clip` of `app/clip_extractor.py`
(lines 38-58) passes to `ffmpeg.input`: a hard-coded 5-second symmetric buffer,
with the buffered start clamped at 0, and the duration between the buffered
bounds. -/
def extract_clip_args (start_time end_time : ℚ) : ℚ × ℚ :=
  let buffer_seconds : ℚ := 5
  let buffered_start_time := max 0 (start_time - buffer_seconds)
  let buffered_end_time := end_time + buffer_seconds
  (buffered_start_time, buffered_end_time - buffered_start_time)

/-- The `(ss, t)` pair that the batch path `_extract_individual_clips`
(lines 152-153) passes to `ffmpeg.input`: no buffer, the raw interval. -/
def batch_extract_args (h : HighlightClip) : ℚ × ℚ :=
  (h.start_time, h.end_time - h.start_time)

/-- Modelled from the spec: the symmetric buffer rule of section 4.3 — the
buffer is subtracted from the start (clamped at 0) and added to the end,
yielding the cut range `[max 0 (start - buffer), end + buffer]`. Named
separately so the code paths can be compared against it. -/
def spec_buffered_cut (buffer start_time end_time : ℚ) : ℚ × ℚ :=
  (max 0 (start_time - buffer), end_time + buffer)

/-- The result dictionary of `create_final_highlight`: the union of the keys
of the cached-success, fresh-success and failure dictionaries, each key absent
(`none`) in the shapes that do not carry it. -/
structure ResultDict where
  success : Bool
  message : String
  error : Option String := none
  output_path : Option String := none
  already_exists : Option Bool := none
  file_size_bytes : Option ℤ := none
  cached_at : Option ℚ := none
  clips_used : Option ℕ := none
  highlights_duration : Option ℚ := none
  intro_duration : Option ℚ := none
  outro_duration : Option ℚ := none
  total_duration : Option ℚ := none
  has_intro : Option Bool := none
  has_outro : Option Bool := none
  video_properties : Option (Option VideoProps) := none
  highlights_out : Option (List (ℚ × ℚ × String × Option ℚ)) := none
deriving DecidableEq, Repr

/-- Body of the `try` block of `create_final_highlight` (lines 343-454):
an `.error` is an exception escaping a stage, caught by the wrapper below. -/
def create_final_highlight_body (env : Env) (highlights : List HighlightClip)
    (video_path output_dir : String) (overwrite : Bool) : Except String ResultDict :=
  let final_highlight_path := path_join output_dir "final_highlight.mp4"
  let clips_json_path := path_join output_dir "clips.json"
  if !overwrite && is_cache_valid env final_highlight_path clips_json_path then
    let file_size := env.getsize final_highlight_path
    let file_mtime := env.getmtime final_highlight_path
    let highlights_duration := (highlights.map (fun h => h.end_time - h.start_time)).sum
    let intro_duration : ℚ := if env.file_exists intro_path then 2 else 0
    let outro_duration : ℚ := if env.file_exists outro_path then 2 else 0
    Except.ok
      { success := true
        message := "Final highlight already exists (cached)"
        output_path := some final_highlight_path
        already_exists := some true
        file_size_bytes := some file_size
        cached_at := some file_mtime
        clips_used := some highlights.length
        highlights_duration := some highlights_duration
        intro_duration := some intro_duration
        outro_duration := some outro_duration
        total_duration := some (highlights_duration + intro_duration + outro_duration)
        has_intro := some (env.file_exists intro_path)
        has_outro := some (env.file_exists outro_path) }
  else
    let non_overlapping_highlights := detect_overlaps highlights
    if non_overlapping_highlights.isEmpty then
      Except.ok
        { success := false
          error := some "No valid clips to stitch together"
          message := "No highlights available for final video" }
    else
      let clip_paths := extract_individual_clips env non_overlapping_highlights output_dir
      if clip_paths.isEmpty then
        Except.ok
          { success := false
            error := some "Failed to extract any clips"
            message := "No clips were successfully extracted" }
      else
        match env.concat_error with
        | some e => Except.error e
        | none =>
          match env.stitch_error with
          | some e => Except.error ("Failed to stitch clips: " ++ e)
          | none =>
            let highlights_duration :=
              (non_overlapping_highlights.map (fun h => h.end_time - h.start_time)).sum
            let intro_duration : ℚ := if env.file_exists intro_path then 2 else 0
            let outro_duration : ℚ := if env.file_exists outro_path then 2 else 0
            Except.ok
              { success := true
                message := "Final highlight created successfully with intro and outro"
                output_path := some final_highlight_path
                clips_used := some clip_paths.length
                highlights_duration := some highlights_duration
                intro_duration := some intro_duration
                outro_duration := some outro_duration
                total_duration := some (highlights_duration + intro_duration + outro_duration)
                has_intro := some (env.file_exists intro_path)
                has_outro := some (env.file_exists outro_path)
                video_properties := some env.main_props
                highlights_out := some (non_overlapping_highlights.map
                  (fun h => (h.start_time, h.end_time, h.description, h.importance_score))) }

/-- Embeds `FinalHighlightCreator.create_final_highlight` (lines 328-461): the
`try` body with its terminal `except` handler, which converts any escaped
exception into the structured failure dictionary of lines 456-461. -/
def create_final_highlight (env : Env) (highlights : List HighlightClip)
    (video_path output_dir : String) (overwrite : Bool) : ResultDict :=
  match create_final_highlight_body env highlights video_path output_dir overwrite with
  | Except.ok r => r
  | Except.error e =>
    { success := false
      error := some e
      message := "Failed to create final highlight" }

/-- Invariant of the merge walk: if the remaining candidates are sorted by
`start_time` and all start at or after the current last element's start, the
produced list is pairwise separated and every element starts at or after the
current last element's start. -/
theorem mergeLoop_sep (rest : List HighlightClip) : ∀ (last : HighlightClip),
    rest.Pairwise startLE →
    (∀ h ∈ rest, last.start_time ≤ h.start_time) →
    (mergeLoop last rest).Pairwise sepLE ∧
      ∀ x ∈ mergeLoop last rest, last.start_time ≤ x.start_time := by
  induction rest with
  | nil =>
    intro last _ _
    refine ⟨List.pairwise_singleton _ _, ?_⟩
    intro x hx
    rw [mergeLoop, List.mem_singleton] at hx
    rw [hx]
  | cons h rest ih =>
    intro last hp hle
    obtain ⟨hh, hp'⟩ := List.pairwise_cons.1 hp
    by_cases hov : h.start_time < last.end_time
    · rw [mergeLoop, if_pos hov]
      have hms : (mergedClip last h).start_time = last.start_time := rfl
      have hrec := ih (mergedClip last h) hp' (fun b hb => by
        rw [hms]
        exact hle b (List.mem_cons_of_mem _ hb))
      refine ⟨hrec.1, fun x hx => ?_⟩
      have := hrec.2 x hx
      rwa [hms] at this
    · rw [mergeLoop, if_neg hov]
      obtain ⟨hpl, hsl⟩ := ih h hp' hh
      have hlh : last.start_time ≤ h.start_time := hle h (List.mem_cons_self _ _)
      have hend : last.end_time ≤ h.start_time := not_lt.1 hov
      refine ⟨List.pairwise_cons.2 ⟨fun x hx => ?_, hpl⟩, fun x hx => ?_⟩
      · exact ⟨le_trans hlh (hsl x hx), le_trans hend (hsl x hx)⟩
      · rcases List.mem_cons.1 hx with rfl | hx
        · exact le_refl _
        · exact le_trans hlh (hsl x hx)

/-- The merger's output is pairwise separated (sorted by start, each interval
ending before the next begins). -/
theorem detect_overlaps_sep (highlights : List HighlightClip) :
    (detect_overlaps highlights).Pairwise sepLE := by
  have hs : (List.insertionSort startLE highlights).Pairwise startLE :=
    List.sorted_insertionSort startLE highlights
  rw [detect_overlaps]
  cases hsort : List.insertionSort startLE highlights with
  | nil => exact List.Pairwise.nil
  | cons a l =>
    rw [hsort] at hs
    obtain ⟨ha, hl⟩ := List.pairwise_cons.1 hs
    exact (mergeLoop_sep l a hl ha).1

/-- When consecutive candidates never overlap, the walk appends every candidate
unchanged. -/
theorem mergeLoop_no_merge (rest : List HighlightClip) : ∀ (last : HighlightClip),
    List.Chain (fun a b => a.end_time ≤ b.start_time) last rest →
    mergeLoop last rest = last :: rest := by
  induction rest with
  | nil => intro last _; rfl
  | cons h rest ih =>
    intro last hc
    cases hc with
    | cons hlh hc =>
      rw [mergeLoop, if_neg (not_lt.2 hlh), ih h hc]

/-- A list that is already pairwise separated is a fixed point of the merger. -/
theorem detect_overlaps_of_sep {l : List HighlightClip} (hp : l.Pairwise sepLE) :
    detect_overlaps l = l := by
  have hsorted : l.Pairwise startLE := hp.imp (fun h => h.1)
  rw [detect_overlaps, List.Sorted.insertionSort_eq hsorted]
  cases l with
  | nil => rfl
  | cons a l' =>
    have hchain : List.Chain (fun a b => a.end_time ≤ b.start_time) a l' :=
      (hp.imp (fun h => h.2)).chain'
    rw [mergeAll, mergeLoop_no_merge l' a hchain]

/-- The merge walk never returns an empty list. -/
theorem mergeLoop_ne_nil (rest : List HighlightClip) : ∀ (last : HighlightClip),
    mergeLoop last rest ≠ [] := by
  induction rest with
  | nil => intro last h; exact List.cons_ne_nil _ _ h
  | cons h rest ih =>
    intro last
    by_cases hov : h.start_time < last.end_time
    · rw [mergeLoop, if_pos hov]
      exact ih (mergedClip last h)
    · rw [mergeLoop, if_neg hov]
      exact List.cons_ne_nil _ _

/-- The merger returns an empty list only on an empty input. -/
theorem detect_overlaps_eq_nil_iff (highlights : List HighlightClip) :
    detect_overlaps highlights = [] ↔ highlights = [] := by
  constructor
  · intro h
    by_contra hne
    have hlen : (List.insertionSort startLE highlights).length = highlights.length :=
      List.length_insertionSort startLE highlights
    cases hsort : List.insertionSort startLE highlights with
    | nil =>
      rw [hsort] at hlen
      exact hne (List.eq_nil_of_length_eq_zero hlen.symm)
    | cons a l =>
      rw [detect_overlaps, hsort] at h
      exact mergeLoop_ne_nil l a h
  · intro h
    rw [h]
    rfl

/-- The merge walk emits at most one interval per candidate (plus the seed). -/
theorem mergeLoop_length_le (rest : List HighlightClip) : ∀ (last : HighlightClip),
    (mergeLoop last rest).length ≤ rest.length + 1 := by
  induction rest with
  | nil => intro last; exact le_refl _
  | cons h rest ih =>
    intro last
    by_cases hov : h.start_time < last.end_time
    · rw [mergeLoop, if_pos hov]
      exact le_trans (ih (mergedClip last h)) (Nat.le_succ _)
    · rw [mergeLoop, if_neg hov]
      simpa [List.length_cons] using Nat.succ_le_succ (ih h)

/-- The merger never lengthens the list. -/
theorem detect_overlaps_length_le (highlights : List HighlightClip) :
    (detect_overlaps highlights).length ≤ highlights.length := by
  have hlen : (List.insertionSort startLE highlights).length = highlights.length :=
    List.length_insertionSort startLE highlights
  rw [detect_overlaps]
  cases hsort : List.insertionSort startLE highlights with
  | nil => exact Nat.zero_le _
  | cons a l =>
    rw [hsort] at hlen
    rw [mergeAll]
    calc (mergeLoop a l).length ≤ l.length + 1 := mergeLoop_length_le l a
    _ = highlights.length := by rw [← hlen]; rfl

/-- Python `x or 0` agrees with defaulting the absent value to 0. -/
theorem pyOrZero_eq_getD (v : Option ℚ) : pyOrZero v = v.getD 0 := by
  cases v with
  | none => rfl
  | some x =>
    by_cases hx : x = 0
    · rw [pyOrZero, if_pos hx, Option.getD_some, hx]
    · rw [pyOrZero, if_neg hx, Option.getD_some]

/-- Sorting a two-element list whose first element already starts no later than
the second leaves it unchanged. -/
theorem insertionSort_pair (a b : HighlightClip) (hab : a.start_time ≤ b.start_time) :
    List.insertionSort startLE [a, b] = [a, b] :=
  List.Sorted.insertionSort_eq (by
    refine List.pairwise_cons.2 ⟨?_, List.pairwise_singleton _ _⟩
    intro x hx
    rw [List.mem_singleton] at hx
    rw [hx]
    exact hab)

/-- Two overlapping intervals, given in sorted order, merge into the single
merged clip. -/
theorem detect_overlaps_pair (a b : HighlightClip) (hab : a.start_time ≤ b.start_time)
    (hov : b.start_time < a.end_time) :
    detect_overlaps [a, b] = [mergedClip a b] := by
  rw [detect_overlaps, insertionSort_pair a b hab, mergeAll, mergeLoop, if_pos hov, mergeLoop]

/-- The extraction loop keeps, in order, exactly the clip paths whose index the
environment lets succeed. -/
theorem extract_clips_go_eq (env : Env) (dir : String) (hs : List HighlightClip) :
    ∀ (i : ℕ),
    extract_clips_go env dir i hs =
      ((List.enumFrom i hs).filter (fun p => env.extract_ok p.1)).map
        (fun p => path_join dir (clip_filename p.1 p.2)) := by
  induction hs with
  | nil => intro i; rfl
  | cons h rest ih =>
    intro i
    rw [List.enumFrom_cons]
    cases he : env.extract_ok i with
    | true =>
      rw [extract_clips_go, if_pos he, List.filter_cons_of_pos (by simpa using he),
        List.map_cons, ih (i + 1)]
    | false =>
      rw [extract_clips_go, if_neg (by simp [he]), List.filter_cons_of_neg (by simpa using he),
        ih (i + 1)]

/-- When every extraction fails the loop returns no clip paths. -/
theorem extract_clips_go_all_fail (env : Env) (dir : String)
    (hfail : ∀ i, env.extract_ok i = false) (hs : List HighlightClip) :
    ∀ (i : ℕ), extract_clips_go env dir i hs = [] := by
  induction hs with
  | nil => intro i; rfl
  | cons h rest ih =>
    intro i
    rw [extract_clips_go, if_neg (by simp [hfail i]), ih (i + 1)]

/-- The loop extracts at most one clip per highlight. -/
theorem extract_clips_go_length_le (env : Env) (dir : String) (hs : List HighlightClip) :
    ∀ (i : ℕ), (extract_clips_go env dir i hs).length ≤ hs.length := by
  induction hs with
  | nil => intro i; exact le_refl _
  | cons h rest ih =>
    intro i
    cases he : env.extract_ok i with
    | true =>
      rw [extract_clips_go, if_pos he, List.length_cons, List.length_cons]
      exact Nat.succ_le_succ (ih (i + 1))
    | false =>
      rw [extract_clips_go, if_neg (by simp [he]), List.length_cons]
      exact le_trans (ih (i + 1)) (Nat.le_succ _)

/-- Cached-hit evaluation of the pipeline: with `overwrite = false` and a valid
cache record, the cached dictionary of lines 360-375 is returned. -/
theorem create_final_highlight_cached_eq (env : Env) (hs : List HighlightClip) (vp od : String)
    (hv : is_cache_valid env (path_join od "final_highlight.mp4") (path_join od "clips.json") = true) :
    create_final_highlight env hs vp od false =
      { success := true
        message := "Final highlight already exists (cached)"
        output_path := some (path_join od "final_highlight.mp4")
        already_exists := some true
        file_size_bytes := some (env.getsize (path_join od "final_highlight.mp4"))
        cached_at := some (env.getmtime (path_join od "final_highlight.mp4"))
        clips_used := some hs.length
        highlights_duration := some ((hs.map (fun h => h.end_time - h.start_time)).sum)
        intro_duration := some (if env.file_exists intro_path then 2 else 0)
        outro_duration := some (if env.file_exists outro_path then 2 else 0)
        total_duration := some ((hs.map (fun h => h.end_time - h.start_time)).sum +
          (if env.file_exists intro_path then 2 else 0) +
          (if env.file_exists outro_path then 2 else 0))
        has_intro := some (env.file_exists intro_path)
        has_outro := some (env.file_exists outro_path) } := by
  simp only [create_final_highlight, create_final_highlight_body, Bool.not_false,
    Bool.true_and, hv, if_true]

/-- Fresh-run evaluation of the pipeline: with `overwrite = true`, a non-empty
merged list, at least one extracted clip and no stage error, the fresh success
dictionary of lines 433-454 is returned. -/
theorem create_final_highlight_fresh_eq (env : Env) (hs : List HighlightClip) (vp od : String)
    (hne : detect_overlaps hs ≠ [])
    (hclips : extract_individual_clips env (detect_overlaps hs) od ≠ [])
    (hcat : env.concat_error = none) (hst : env.stitch_error = none) :
    create_final_highlight env hs vp od true =
      { success := true
        message := "Final highlight created successfully with intro and outro"
        output_path := some (path_join od "final_highlight.mp4")
        clips_used := some (extract_individual_clips env (detect_overlaps hs) od).length
        highlights_duration :=
          some (((detect_overlaps hs).map (fun h => h.end_time - h.start_time)).sum)
        intro_duration := some (if env.file_exists intro_path then 2 else 0)
        outro_duration := some (if env.file_exists outro_path then 2 else 0)
        total_duration := some (((detect_overlaps hs).map (fun h => h.end_time - h.start_time)).sum +
          (if env.file_exists intro_path then 2 else 0) +
          (if env.file_exists outro_path then 2 else 0))
        has_intro := some (env.file_exists intro_path)
        has_outro := some (env.file_exists outro_path)
        video_properties := some env.main_props
        highlights_out := some ((detect_overlaps hs).map
          (fun h => (h.start_time, h.end_time, h.description, h.importance_score))) } := by
  have hme : (detect_overlaps hs).isEmpty = false := by
    cases hd : (detect_overlaps hs).isEmpty
    · rfl
    · exact absurd (List.isEmpty_iff.1 hd) hne
  have hce : (extract_individual_clips env (detect_overlaps hs) od).isEmpty = false := by
    cases hd : (extract_individual_clips env (detect_overlaps hs) od).isEmpty
    · rfl
    · exact absurd (List.isEmpty_iff.1 hd) hclips
  simp only [create_final_highlight, create_final_highlight_body, Bool.not_true,
    Bool.false_and, Bool.false_eq_true, if_false, hme, hce, hcat, hst]

/-- When the input is non-empty but every per-clip extraction fails, the run
aborts with the structured extraction failure of lines 396-401. -/
theorem create_final_highlight_all_extract_fail (env : Env) (hs : List HighlightClip)
    (vp od : String) (hne : hs ≠ []) (hfail : ∀ i, env.extract_ok i = false) :
    create_final_highlight env hs vp od true =
      { success := false
        error := some "Failed to extract any clips"
        message := "No clips were successfully extracted" } := by
  have hmne : detect_overlaps hs ≠ [] := by
    rw [Ne, detect_overlaps_eq_nil_iff]
    exact hne
  have hme : (detect_overlaps hs).isEmpty = false := by
    cases hd : (detect_overlaps hs).isEmpty
    · rfl
    · exact absurd (List.isEmpty_iff.1 hd) hmne
  have hce : (extract_individual_clips env (detect_overlaps hs) od).isEmpty = true := by
    rw [extract_individual_clips, extract_clips_go_all_fail env _ hfail _ 0]
    rfl
  simp only [create_final_highlight, create_final_highlight_body, Bool.not_true,
    Bool.false_and, Bool.false_eq_true, if_false, hme, hce, if_true]

/-- Any value the body returns is either a success or a structured failure with
an error and a non-empty message. -/
theorem create_final_highlight_body_shape (env : Env) (hs : List HighlightClip)
    (vp od : String) (ow : Bool) (r : ResultDict)
    (h : create_final_highlight_body env hs vp od ow = Except.ok r) :
    r.success = true ∨ (r.success = false ∧ r.error.isSome = true ∧ r.message ≠ "") := by
  simp only [create_final_highlight_body] at h
  split at h
  · cases h
    exact Or.inl rfl
  · split at h
    · cases h
      exact Or.inr ⟨rfl, rfl, by decide⟩
    · split at h
      · cases h
        exact Or.inr ⟨rfl, rfl, by decide⟩
      · split at h
        · exact absurd h (by simp)
        · split at h
          · exact absurd h (by simp)
          · cases h
            exact Or.inl rfl

/-- C1: for every input list, the output of the Interval Merger
(`_detect_overlaps`) is sorted ascending by `start_time` and pairwise
non-overlapping: for positions `i < j` in the output,
`out[i].end_time ≤ out[j].start_time` (touching at a boundary allowed). -/
theorem claim_C1_merger_output_sorted_disjoint (highlights : List HighlightClip) :
    (detect_overlaps highlights).Pairwise
      (fun a b => a.start_time ≤ b.start_time ∧ a.end_time ≤ b.start_time) :=
  detect_overlaps_sep highlights

/-- C2 counterexample: the claim says the merged `category` is
`last.category` whenever it is present; but the source computes it with
Python `or`, so a present-but-empty `category` is discarded in favour of the
candidate's. Here the first interval's category is present (`some ""`), yet
the merged interval's category is the candidate's `some "goal"`. -/
theorem claim_C2_counterexample :
    (HighlightClip.category
      { start_time := 0, end_time := 10, description := "first",
        category := some "" }).isSome = true ∧
    (detect_overlaps
      [{ start_time := 0, end_time := 10, description := "first", category := some "" },
       { start_time := 5, end_time := 15, description := "second", category := some "goal" }]).map
      HighlightClip.category = [some "goal"] ∧
    [Option.some "goal"] ≠ [HighlightClip.category
      { start_time := 0, end_time := 10, description := "first",
        category := some "" }] := by
  refine ⟨rfl, ?_, by decide⟩
  decide

/-- C2 (amended): when two consecutive sorted intervals overlap
(`candidate.start_time < last.end_time`), the merger replaces the last placed
interval with a merged interval whose `start_time` is `last.start_time`,
`end_time` is `max(last.end_time, candidate.end_time)`, `description` is
`last.description ++ " | " ++ candidate.description` in placement order,
`importance_score` is `max(last.importance_score or 0, candidate.importance_score
or 0)`, and `category` is `last.category` if present and non-empty, else
`candidate.category` (Python truthiness: an empty-string category counts as
absent); merging `[0,10]` and `[5,15]` yields `[0,15]` with the max
`importance_score` and description `"first | second"`. -/
theorem claim_C2_merge_fields (a b : HighlightClip)
    (hab : a.start_time ≤ b.start_time) (hov : b.start_time < a.end_time) :
    detect_overlaps [a, b] = [mergedClip a b] ∧
    (mergedClip a b).start_time = a.start_time ∧
    (mergedClip a b).end_time = max a.end_time b.end_time ∧
    (mergedClip a b).description = a.description ++ " | " ++ b.description ∧
    (mergedClip a b).importance_score =
      some (max (a.importance_score.getD 0) (b.importance_score.getD 0)) ∧
    (a.category = none → (mergedClip a b).category = b.category) ∧
    (∀ s, a.category = some s → s ≠ "" → (mergedClip a b).category = some s) ∧
    (a.category = some "" → (mergedClip a b).category = b.category) ∧
    detect_overlaps
      [{ start_time := 0, end_time := 10, description := "first", importance_score := some 3 },
       { start_time := 5, end_time := 15, description := "second", importance_score := some 7 }] =
      [{ start_time := 0, end_time := 15, duration := some 15,
         description := "first | second", importance_score := some 7 }] := by
  refine ⟨detect_overlaps_pair a b hab hov, rfl, rfl, rfl, ?_, ?_, ?_, ?_, ?_⟩
  · show some (max (pyOrZero a.importance_score) (pyOrZero b.importance_score)) = _
    rw [pyOrZero_eq_getD, pyOrZero_eq_getD]
  · intro hc
    show pyOrStr a.category b.category = b.category
    rw [hc, pyOrStr]
  · intro s hc hs
    show pyOrStr a.category b.category = some s
    rw [hc]
    simp [pyOrStr, hs]
  · intro hc
    show pyOrStr a.category b.category = b.category
    rw [hc]
    simp [pyOrStr]
  · norm_num [detect_overlaps, List.insertionSort, List.orderedInsert, startLE, mergeAll,
      mergeLoop, mergedClip, pyOrZero, pyOrStr]
    all_goals decide

/-- C2 witness: the merge theorem applied to the concrete overlapping pair
`[0,10]` and `[5,15]`. -/
theorem claim_C2_witness :
    detect_overlaps
      [{ start_time := 0, end_time := 10, description := "first", importance_score := some 3 },
       { start_time := 5, end_time := 15, description := "second", importance_score := some 7 }] =
      [mergedClip
        { start_time := 0, end_time := 10, description := "first", importance_score := some 3 }
        { start_time := 5, end_time := 15, description := "second", importance_score := some 7 }] :=
  (claim_C2_merge_fields
    { start_time := 0, end_time := 10, description := "first", importance_score := some 3 }
    { start_time := 5, end_time := 15, description := "second", importance_score := some 7 }
    (by decide) (by decide)).1

/-- C3: `create_final_highlight` never raises past its own boundary: every
result is a dictionary value that is either a success or carries
`success = false` together with an error and a non-empty message; and a
zero-highlight input (on the fresh path) yields the structured
"no valid clips" failure, not an exception. -/
theorem claim_C3_structured_failure_values :
    (∀ (env : Env) (hs : List HighlightClip) (vp od : String) (ow : Bool),
      (create_final_highlight env hs vp od ow).success = true ∨
        ((create_final_highlight env hs vp od ow).success = false ∧
         (create_final_highlight env hs vp od ow).error.isSome = true ∧
         (create_final_highlight env hs vp od ow).message ≠ "")) ∧
    (∀ (env : Env) (vp od : String),
      (create_final_highlight env [] vp od true).success = false ∧
      (create_final_highlight env [] vp od true).error =
        some "No valid clips to stitch together" ∧
      (create_final_highlight env [] vp od true).message =
        "No highlights available for final video") := by
  constructor
  · intro env hs vp od ow
    cases hbody : create_final_highlight_body env hs vp od ow with
    | ok r =>
      rw [create_final_highlight, hbody]
      exact create_final_highlight_body_shape env hs vp od ow r hbody
    | error e =>
      rw [create_final_highlight, hbody]
      exact Or.inr ⟨rfl, rfl,
        show ("Failed to create final highlight" : String) ≠ "" by decide⟩
  · intro env vp od
    exact ⟨rfl, rfl, rfl⟩

/-- C4: `_is_cache_valid` is false when the artifact is absent, false when the
source of truth is absent, and when both exist it is true exactly when the
artifact's modification time is at least the source's. -/
theorem claim_C4_cache_validity (env : Env) (artifact source : String) :
    (env.file_exists artifact = false → is_cache_valid env artifact source = false) ∧
    (env.file_exists source = false → is_cache_valid env artifact source = false) ∧
    (env.file_exists artifact = true → env.file_exists source = true →
      (is_cache_valid env artifact source = true ↔
        env.getmtime source ≤ env.getmtime artifact)) := by
  refine ⟨?_, ?_, ?_⟩
  · intro h
    simp [is_cache_valid, h]
  · intro h
    simp [is_cache_valid, h]
  · intro h1 h2
    simp [is_cache_valid, h1, h2, ge_iff_le]

/-- C4 witness: a concrete environment where the artifact is missing (validity
false) and one where both files exist with artifact mtime 5 ≥ source mtime 3
(validity true). -/
theorem claim_C4_witness :
    is_cache_valid
      { file_exists := fun _ => false, getmtime := fun _ => 0, getsize := fun _ => 0,
        extract_ok := fun _ => true, main_props := none, concat_error := none,
        stitch_error := none } "a" "b" = false ∧
    is_cache_valid
      { file_exists := fun _ => true, getmtime := fun s => if s = "a" then 5 else 3,
        getsize := fun _ => 0, extract_ok := fun _ => true, main_props := none,
        concat_error := none, stitch_error := none } "a" "b" = true :=
  ⟨(claim_C4_cache_validity
      { file_exists := fun _ => false, getmtime := fun _ => 0, getsize := fun _ => 0,
        extract_ok := fun _ => true, main_props := none, concat_error := none,
        stitch_error := none } "a" "b").1 rfl,
   ((claim_C4_cache_validity
      { file_exists := fun _ => true, getmtime := fun s => if s = "a" then 5 else 3,
        getsize := fun _ => 0, extract_ok := fun _ => true, main_props := none,
        concat_error := none, stitch_error := none } "a" "b").2.2 rfl rfl).mpr (by decide)⟩

/-- C5: clip extraction skips failed intervals instead of aborting: the clip
list is exactly the successfully extracted clips, in merged-interval order;
when the input is non-empty and every extraction fails the run aborts with the
structured extraction failure; and a fresh success reports `clips_used` equal
to the number of successfully extracted clips. -/
theorem claim_C5_extraction_skips_failures :
    (∀ (env : Env) (hs : List HighlightClip) (od : String),
      extract_individual_clips env hs od =
        (hs.enum.filter (fun p => env.extract_ok p.1)).map
          (fun p => path_join (path_join od temp_dir) (clip_filename p.1 p.2))) ∧
    (∀ (env : Env) (hs : List HighlightClip) (vp od : String), hs ≠ [] →
      (∀ i, env.extract_ok i = false) →
      (create_final_highlight env hs vp od true).success = false ∧
      (create_final_highlight env hs vp od true).error = some "Failed to extract any clips") ∧
    (∀ (env : Env) (hs : List HighlightClip) (vp od : String),
      detect_overlaps hs ≠ [] →
      extract_individual_clips env (detect_overlaps hs) od ≠ [] →
      env.concat_error = none → env.stitch_error = none →
      (create_final_highlight env hs vp od true).success = true ∧
      (create_final_highlight env hs vp od true).clips_used =
        some (extract_individual_clips env (detect_overlaps hs) od).length) := by
  refine ⟨?_, ?_, ?_⟩
  · intro env hs od
    rw [extract_individual_clips, extract_clips_go_eq]
    rfl
  · intro env hs vp od hne hfail
    rw [create_final_highlight_all_extract_fail env hs vp od hne hfail]
    exact ⟨rfl, rfl⟩
  · intro env hs vp od h1 h2 h3 h4
    rw [create_final_highlight_fresh_eq env hs vp od h1 h2 h3 h4]
    exact ⟨rfl, rfl⟩

/-- C5 witness: with one highlight and an environment failing every
extraction, the run aborts with the structured extraction failure. -/
theorem claim_C5_witness :
    (create_final_highlight
      { file_exists := fun _ => true, getmtime := fun _ => 0, getsize := fun _ => 0,
        extract_ok := fun _ => false, main_props := none, concat_error := none,
        stitch_error := none }
      [{ start_time := 0, end_time := 10, description := "goal" }]
      "v" "o" true).success = false ∧
    (create_final_highlight
      { file_exists := fun _ => true, getmtime := fun _ => 0, getsize := fun _ => 0,
        extract_ok := fun _ => false, main_props := none, concat_error := none,
        stitch_error := none }
      [{ start_time := 0, end_time := 10, description := "goal" }]
      "v" "o" true).error = some "Failed to extract any clips" :=
  claim_C5_extraction_skips_failures.2.1
    { file_exists := fun _ => true, getmtime := fun _ => 0, getsize := fun _ => 0,
      extract_ok := fun _ => false, main_props := none, concat_error := none,
      stitch_error := none }
    [{ start_time := 0, end_time := 10, description := "goal" }]
    "v" "o" (by decide) (fun _ => rfl)

/-- C6: the Interval Merger is idempotent — re-running it on its own output
yields the same output; any list already sorted by `start_time` and pairwise
non-overlapping is returned unchanged; the empty list yields the empty list;
and the three disjoint intervals `[0,5]`, `[10,15]`, `[20,25]` are returned
unchanged and in order. -/
theorem claim_C6_merger_idempotent :
    (∀ (highlights : List HighlightClip),
      detect_overlaps (detect_overlaps highlights) = detect_overlaps highlights) ∧
    (∀ (l : List HighlightClip),
      l.Pairwise (fun a b => a.start_time ≤ b.start_time ∧ a.end_time ≤ b.start_time) →
      detect_overlaps l = l) ∧
    detect_overlaps [] = [] ∧
    detect_overlaps
      [{ start_time := 0, end_time := 5, description := "a" },
       { start_time := 10, end_time := 15, description := "b" },
       { start_time := 20, end_time := 25, description := "c" }] =
      [{ start_time := 0, end_time := 5, description := "a" },
       { start_time := 10, end_time := 15, description := "b" },
       { start_time := 20, end_time := 25, description := "c" }] := by
  refine ⟨?_, ?_, rfl, by decide⟩
  · intro hs
    exact detect_overlaps_of_sep (detect_overlaps_sep hs)
  · intro l hp
    exact detect_overlaps_of_sep hp

/-- C6 witness: the fixed-point clause applied to a concrete sorted,
non-overlapping two-interval list. -/
theorem claim_C6_witness :
    detect_overlaps
      [{ start_time := 1, end_time := 2, description := "x" },
       { start_time := 3, end_time := 4, description := "y" }] =
      [{ start_time := 1, end_time := 2, description := "x" },
       { start_time := 3, end_time := 4, description := "y" }] :=
  claim_C6_merger_idempotent.2.1
    [{ start_time := 1, end_time := 2, description := "x" },
     { start_time := 3, end_time := 4, description := "y" }] (by decide)

/-- C7: a manifest line is the absolute clip path with every backslash doubled,
then every colon escaped with a backslash, wrapped as `file '<path>'` plus a
newline; the path `C:\videos\clip.mp4` serializes to
`file 'C\:\\videos\\clip.mp4'` followed by a newline. -/
theorem claim_C7_manifest_escaping :
    concat_manifest_line "C:\\videos\\clip.mp4" =
      "file 'C\\:\\\\videos\\\\clip.mp4'" ++ "\n" ∧
    escape_concat_path "C:\\videos\\clip.mp4" = "C\\:\\\\videos\\\\clip.mp4" := by
  constructor
  · decide
  · decide

/-- C8: the specification says failed extraction or normalization leaves no
half-written artifact because every write targets a temporary name and is
renamed into place; but the code passes the final destination path directly as
the tool's output target and performs no rename, for the extraction loop as
well as for the normalizer — so an interrupted tool run can leave a partial
file at the destination. -/
theorem claim_C8_writes_in_place :
    extract_individual_clips_effects
      [{ start_time := 0, end_time := 10, description := "goal" }] "out" =
      [FsEffect.ffmpeg_write "out/temp_clips/clip_000_0-10.mp4"] ∧
    writes_via_temp_rename "out/temp_clips/clip_000_0-10.mp4"
      (extract_individual_clips_effects
        [{ start_time := 0, end_time := 10, description := "goal" }] "out") = false ∧
    normalize_video_file_effects "out/normalized_intro.mp4" =
      [FsEffect.ffmpeg_write "out/normalized_intro.mp4"] ∧
    writes_via_temp_rename "out/normalized_intro.mp4"
      (normalize_video_file_effects "out/normalized_intro.mp4") = false := by
  refine ⟨by decide, by decide, rfl, by decide⟩

/-- C9: both extraction code paths cut a symmetric-buffer range — the buffer
subtracted from the start (clamped at 0) and added to the end: the single-clip
convenience path `extract_clip` uses a 5-second buffer, and the batch path
inside the pipeline cuts exactly `[start_time, end_time]`, which for a
non-negative start is the buffer-0 instance of the same rule. -/
theorem claim_C9_symmetric_buffer (s e : ℚ) (h : HighlightClip) :
    extract_clip_args s e = (max 0 (s - 5), (e + 5) - max 0 (s - 5)) ∧
    ((extract_clip_args s e).1 = (spec_buffered_cut 5 s e).1 ∧
     (extract_clip_args s e).1 + (extract_clip_args s e).2 = (spec_buffered_cut 5 s e).2) ∧
    batch_extract_args h = (h.start_time, h.end_time - h.start_time) ∧
    (batch_extract_args h).1 + (batch_extract_args h).2 = h.end_time ∧
    (0 ≤ h.start_time →
      ((batch_extract_args h).1 = (spec_buffered_cut 0 h.start_time h.end_time).1 ∧
       (batch_extract_args h).1 + (batch_extract_args h).2 =
         (spec_buffered_cut 0 h.start_time h.end_time).2)) := by
  refine ⟨rfl, ⟨rfl, ?_⟩, rfl, ?_, ?_⟩
  · show max 0 (s - 5) + (e + 5 - max 0 (s - 5)) = e + 5
    ring
  · show h.start_time + (h.end_time - h.start_time) = h.end_time
    ring
  · intro h0
    constructor
    · show h.start_time = max 0 (h.start_time - 0)
      rw [sub_zero, max_eq_right h0]
    · show h.start_time + (h.end_time - h.start_time) = h.end_time + 0
      ring

/-- C9 witness: the buffer theorem at `start = 7`, `end = 20` and at a clip
starting at the non-negative time 3. -/
theorem claim_C9_witness :
    (batch_extract_args { start_time := 3, end_time := 9, description := "w" }).1 =
      (spec_buffered_cut 0 3 9).1 :=
  ((claim_C9_symmetric_buffer 7 20
    { start_time := 3, end_time := 9, description := "w" }).2.2.2.2 (by decide)).1

/-- C10 counterexample: the claim asserts that for ANY input containing
overlapping intervals the cached response differs from the fresh one in both
`clips_used` and `highlights_duration`. For `[0,10]` and `[5,5]` — the second
interval lies strictly inside the first, and the merger does merge them — the
cached and fresh `highlights_duration` coincide (both 10), because the
zero-length overlapped interval contributes nothing to the raw sum. -/
theorem claim_C10_counterexample :
    (5:ℚ) < 10 ∧
    (detect_overlaps
      [{ start_time := 0, end_time := 10, description := "a" },
       { start_time := 5, end_time := 5, description := "b" }]).length <
      ([{ start_time := 0, end_time := 10, description := "a" },
        { start_time := 5, end_time := 5, description := "b" }] : List HighlightClip).length ∧
    (create_final_highlight
      { file_exists := fun _ => true, getmtime := fun _ => 0, getsize := fun _ => 100,
        extract_ok := fun _ => true, main_props := none, concat_error := none,
        stitch_error := none }
      [{ start_time := 0, end_time := 10, description := "a" },
       { start_time := 5, end_time := 5, description := "b" }]
      "v" "o" false).already_exists = some true ∧
    (create_final_highlight
      { file_exists := fun _ => true, getmtime := fun _ => 0, getsize := fun _ => 100,
        extract_ok := fun _ => true, main_props := none, concat_error := none,
        stitch_error := none }
      [{ start_time := 0, end_time := 10, description := "a" },
       { start_time := 5, end_time := 5, description := "b" }]
      "v" "o" true).success = true ∧
    (create_final_highlight
      { file_exists := fun _ => true, getmtime := fun _ => 0, getsize := fun _ => 100,
        extract_ok := fun _ => true, main_props := none, concat_error := none,
        stitch_error := none }
      [{ start_time := 0, end_time := 10, description := "a" },
       { start_time := 5, end_time := 5, description := "b" }]
      "v" "o" false).highlights_duration =
    (create_final_highlight
      { file_exists := fun _ => true, getmtime := fun _ => 0, getsize := fun _ => 100,
        extract_ok := fun _ => true, main_props := none, concat_error := none,
        stitch_error := none }
      [{ start_time := 0, end_time := 10, description := "a" },
       { start_time := 5, end_time := 5, description := "b" }]
      "v" "o" true).highlights_duration := by
  refine ⟨by decide, by decide, ?_, ?_, ?_⟩
  · norm_num [create_final_highlight, create_final_highlight_body, is_cache_valid,
      intro_path, outro_path, path_join]
  · norm_num [create_final_highlight, create_final_highlight_body, is_cache_valid,
      detect_overlaps, List.insertionSort, List.orderedInsert, startLE, mergeAll, mergeLoop,
      mergedClip, pyOrZero, pyOrStr, extract_individual_clips, extract_clips_go, path_join,
      temp_dir, clip_filename, format_int3, intro_path, outro_path]
  · norm_num [create_final_highlight, create_final_highlight_body, is_cache_valid,
      detect_overlaps, List.insertionSort, List.orderedInsert, startLE, mergeAll, mergeLoop,
      mergedClip, pyOrZero, pyOrStr, extract_individual_clips, extract_clips_go, path_join,
      temp_dir, clip_filename, format_int3, intro_path, outro_path]

/-- C10 (amended): the cached-success response computes `clips_used` as the
raw input length and `highlights_duration` as the sum over the raw inputs,
while the fresh-success response computes them from the successfully extracted
clips and the merged intervals; consequently, whenever overlap resolution
actually merges intervals (the merged list is shorter than the input), the
fresh run's clip count is strictly below the raw input length, so the cached
`clips_used` always differs from the fresh one — but `highlights_duration`
need not differ. -/
theorem claim_C10_cached_vs_fresh (env : Env) (hs : List HighlightClip) (vp od : String) :
    (is_cache_valid env (path_join od "final_highlight.mp4") (path_join od "clips.json") = true →
      (create_final_highlight env hs vp od false).clips_used = some hs.length ∧
      (create_final_highlight env hs vp od false).highlights_duration =
        some ((hs.map (fun h => h.end_time - h.start_time)).sum)) ∧
    (detect_overlaps hs ≠ [] →
      extract_individual_clips env (detect_overlaps hs) od ≠ [] →
      env.concat_error = none → env.stitch_error = none →
      (create_final_highlight env hs vp od true).clips_used =
        some (extract_individual_clips env (detect_overlaps hs) od).length ∧
      (create_final_highlight env hs vp od true).highlights_duration =
        some (((detect_overlaps hs).map (fun h => h.end_time - h.start_time)).sum)) ∧
    ((detect_overlaps hs).length < hs.length →
      (extract_individual_clips env (detect_overlaps hs) od).length < hs.length) := by
  refine ⟨?_, ?_, ?_⟩
  · intro hv
    rw [create_final_highlight_cached_eq env hs vp od hv]
    exact ⟨rfl, rfl⟩
  · intro h1 h2 h3 h4
    rw [create_final_highlight_fresh_eq env hs vp od h1 h2 h3 h4]
    exact ⟨rfl, rfl⟩
  · intro hlt
    exact lt_of_le_of_lt (extract_clips_go_length_le env _ (detect_overlaps hs) 0) hlt

/-- C10 witness: on the overlapping pair `[0,10]`, `[5,15]` with an all-success
environment, the cached response reports `clips_used = 2` while the fresh
response reports `clips_used = 1`. -/
theorem claim_C10_witness :
    (create_final_highlight
      { file_exists := fun _ => true, getmtime := fun _ => 0, getsize := fun _ => 100,
        extract_ok := fun _ => true, main_props := none, concat_error := none,
        stitch_error := none }
      [{ start_time := 0, end_time := 10, description := "a" },
       { start_time := 5, end_time := 15, description := "b" }]
      "v" "o" false).clips_used = some 2 ∧
    (create_final_highlight
      { file_exists := fun _ => true, getmtime := fun _ => 0, getsize := fun _ => 100,
        extract_ok := fun _ => true, main_props := none, concat_error := none,
        stitch_error := none }
      [{ start_time := 0, end_time := 10, description := "a" },
       { start_time := 5, end_time := 15, description := "b" }]
      "v" "o" true).clips_used = some 1 :=
  ⟨((claim_C10_cached_vs_fresh
      { file_exists := fun _ => true, getmtime := fun _ => 0, getsize := fun _ => 100,
        extract_ok := fun _ => true, main_props := none, concat_error := none,
        stitch_error := none }
      [{ start_time := 0, end_time := 10, description := "a" },
       { start_time := 5, end_time := 15, description := "b" }]
      "v" "o").1 (by decide)).1,
   ((claim_C10_cached_vs_fresh
      { file_exists := fun _ => true, getmtime := fun _ => 0, getsize := fun _ => 100,
        extract_ok := fun _ => true, main_props := none, concat_error := none,
        stitch_error := none }
      [{ start_time := 0, end_time := 10, description := "a" },
       { start_time := 5, end_time := 15, description := "b" }]
      "v" "o").2.1 (by decide) (by decide) rfl rfl).1⟩
